import Mathlib

/-!
Verification of the Consistency Scoring Engine in `src/src/agent/stat_analysis.py`
(class `StatisticalAnalyzer`).  The Python methods `preprocess`,
`_cosine_similarity`, `compute_similarity` and `symmetric_analysis` are embedded
below as Lean functions; Python `float` arithmetic is modelled over the real
numbers, `collections.Counter` is modelled as an association list built by
iterated increments, and Python sets over `Finset String`.
-/

namespace DocSync

/-- The `stop_words` set from `StatisticalAnalyzer.__init__`, transcribed entry
for entry (the source lists the word "should" twice; membership is unaffected). -/
def stop_words : List String :=
  ["this", "function", "a", "an", "the", "is", "are", "to", "of", "for",
   "in", "with", "it", "and", "from", "into", "that", "which", "who",
   "whose", "whom", "where", "when", "why", "how", "its", "as", "at",
   "by", "be", "been", "being", "can", "could", "do", "does", "did",
   "done", "doing", "has", "have", "had", "having", "will", "would",
   "should", "may", "might", "must", "shall", "should", "about", "above",
   "below", "under", "over", "again", "once", "then", "else", "or",
   "but", "so", "than", "while", "module", "class", "method", "returns",
   "returning", "takes", "inputs", "output", "computes", "calculates",
   "performing", "process", "using", "used", "base", "price"]

/-- The `operational_map` table from `StatisticalAnalyzer.__init__`:
trigger token paired with its synonym list. -/
def operational_map : List (String × List String) :=
  [("dist", ["distance", "euclidean", "metric", "path"]),
   ("calc", ["calculate", "compute", "evaluate", "formula"]),
   ("fetch", ["retrieve", "get", "load", "download"]),
   ("save", ["store", "persist", "write", "export"]),
   ("train", ["fit", "learn", "optimize", "model"]),
   ("predict", ["infer", "forecast", "estimate", "output"]),
   ("sqrt", ["root", "square", "math"]),
   ("log", ["logarithm", "scale", "transform"])]

/-- The character class replaced by a space in `preprocess` (the `re.sub` call):
parentheses, square brackets, braces, colon, comma, period, equals, semicolon,
single quote, double quote, slash, hyphen. -/
def isStructuralPunct (c : Char) : Bool :=
  c == '(' || c == ')' || c == '[' || c == ']' || c == '{' || c == '}' ||
  c == ':' || c == ',' || c == '.' || c == '=' || c == ';' || c == '\'' ||
  c == '\"' || c == '/' || c == '-'

/-- Python `str.strip()`: drop leading and trailing whitespace (working over
the character list of the string). -/
def strip (s : String) : List Char :=
  ((s.toList.dropWhile Char.isWhitespace).reverse.dropWhile Char.isWhitespace).reverse

/-- Split a character list at whitespace characters, keeping empty fields
(the fields between two consecutive separators). -/
def splitWhitespace : List Char → List (List Char)
  | [] => [[]]
  | c :: cs =>
    match splitWhitespace cs with
    | [] => [[c]]
    | field :: rest =>
      if c.isWhitespace then [] :: field :: rest else (c :: field) :: rest

/-- `StatisticalAnalyzer.preprocess`: lowercase, underscores to spaces,
structural punctuation to spaces, split on whitespace (Python `str.split()`
drops empty fields), then keep tokens that are not stopwords and have length
greater than one. -/
def preprocess (text : String) : List String :=
  let lowered := text.toList.map Char.toLower
  let noUnderscore := lowered.map (fun c => if c == '_' then ' ' else c)
  let noPunct := noUnderscore.map (fun c => if isStructuralPunct c then ' ' else c)
  let fields := (splitWhitespace noPunct).filter (fun f => !f.isEmpty)
  (fields.map (fun f => String.mk f)).filter
    (fun t => !stop_words.contains t && decide (t.length > 1))

/-- One step of `collections.Counter` construction: increment the count of
token `t` (first matching entry), or append a fresh entry with count 1. -/
def bump : List (String × ℕ) → String → List (String × ℕ)
  | [], t => [(t, 1)]
  | (k, v) :: rest, t => if k = t then (k, v + 1) :: rest else (k, v) :: bump rest t

/-- `collections.Counter(tokens)`: fold the token list through `bump`. -/
def Counter (tokens : List String) : List (String × ℕ) := tokens.foldl bump []

/-- Dictionary access `vec[x]` on the association list (0 when absent). -/
def lookup : List (String × ℕ) → String → ℕ
  | [], _ => 0
  | (k, v) :: rest, t => if k = t then v else lookup rest t

/-- Python `set(vec.keys())`. -/
def keys (vec : List (String × ℕ)) : Finset String := (vec.map Prod.fst).toFinset

/-- The numerator of `_cosine_similarity`: sum of `vec1[x] * vec2[x]` over the
intersection of the two key sets. -/
def dotNumerator (vec1 vec2 : List (String × ℕ)) : ℕ :=
  (keys vec1 ∩ keys vec2).sum (fun x => lookup vec1 x * lookup vec2 x)

/-- `sum(val ** 2 for val in vec.values())`: one summand per dictionary entry. -/
def sumSqValues (vec : List (String × ℕ)) : ℕ :=
  (vec.map (fun p => p.2 ^ 2)).sum

/-- `StatisticalAnalyzer._cosine_similarity`: the guard `if not denominator`
returns 0.0 on a zero denominator, otherwise `numerator / denominator`. -/
noncomputable def cosineSimilarity (vec1 vec2 : List (String × ℕ)) : ℝ :=
  let numerator : ℕ := dotNumerator vec1 vec2
  let denominator : ℝ := Real.sqrt (sumSqValues vec1) * Real.sqrt (sumSqValues vec2)
  if denominator = 0 then 0 else (numerator : ℝ) / denominator

/-- The result dictionary of `compute_similarity`; the Python code serialises
the three vocabulary sets as sorted lists, modelled here as the underlying
finite sets. -/
structure SimilarityResult where
  score : ℝ
  common_words : Finset String
  missing_in_code : Finset String
  missing_in_doc : Finset String
  suggestions : List String

/-- The generic suggestion appended when the boosted score is below 0.5. -/
def improveMsg : String :=
  "Improve vocabulary alignment between code identifiers and docstrings."

/-- The f-string
`f"Operational Gap: Code uses '\x7btrigger\x7d' but docs don't mention \x7bsynonyms[0]\x7d."`. -/
def gapMsg (entry : String × List String) : String :=
  "Operational Gap: Code uses \x27" ++ entry.1 ++ "\x27 but docs don\x27t mention " ++
    entry.2.headD "" ++ "."

/-- Python substring containment `needle in hay`, over character lists. -/
def inStr (needle hay : List Char) : Bool :=
  (List.range (hay.length + 1)).any
    (fun i => (hay.drop i).take needle.length == needle)

/-- The per-trigger condition of the operational alignment loop: the trigger
occurs in the (lowercased) code text and neither a synonym nor the trigger
itself occurs in the (lowercased) doc text. -/
def unmetTrigger (code_str doc_str : List Char) (entry : String × List String) : Bool :=
  inStr entry.1.toList code_str &&
    !(entry.2.any (fun s => inStr s.toList doc_str) || inStr entry.1.toList doc_str)

/-- The operational-gap suggestions appended by the loop over
`operational_map` in `compute_similarity`, in table order. -/
def operationalSuggestions (code_str doc_str : List Char) : List String :=
  (operational_map.filter (unmetTrigger code_str doc_str)).map gapMsg

/-- `StatisticalAnalyzer.compute_similarity`.  The `try/except` body never
raises in this pure embedding, so only the blank-input guard and the main
branch appear. -/
noncomputable def compute_similarity (text1 text2 : String) : SimilarityResult :=
  if strip text1 = [] ∨ strip text2 = [] then
    { score := 0, common_words := ∅, missing_in_code := ∅, missing_in_doc := ∅,
      suggestions := ["Input missing."] }
  else
    let tokens1 := preprocess text1
    let tokens2 := preprocess text2
    let vec1 := Counter tokens1
    let vec2 := Counter tokens2
    let raw_sim := cosineSimilarity vec1 vec2
    let score : ℝ := if raw_sim > 0 then min 1 (raw_sim * 1.5) else 0
    let code_words := keys vec1
    let doc_words := keys vec2
    let common := code_words ∩ doc_words
    let missing_in_code := doc_words \ code_words
    let missing_in_doc := code_words \ doc_words
    let code_str := text1.toList.map Char.toLower
    let doc_str := text2.toList.map Char.toLower
    let suggestions :=
      operationalSuggestions code_str doc_str ++
        (if score < 0.5 then [improveMsg] else [])
    { score := score, common_words := common, missing_in_code := missing_in_code,
      missing_in_doc := missing_in_doc, suggestions := suggestions }

/-- The label / icon / summary chain of `symmetric_analysis`. -/
noncomputable def labelBlock (sim_score : ℝ) : String × String × String :=
  if sim_score > 0.85 then
    ("Production Quality", "💎",
     "Excellent alignment. Code and documentation are synchronized perfectly.")
  else if sim_score > 0.65 then
    ("High Alignment", "✅",
     "Strong alignment. Most core concepts are documented correctly.")
  else if sim_score > 0.40 then
    ("Partial Alignment", "⚠️",
     "Noticeable gaps detected. Some critical code logic lacks documentation support.")
  else
    ("Poor Alignment", "❌",
     "Critical mismatch. Documentation does not accurately reflect the source code.")

/-- The report dictionary returned by `symmetric_analysis` (the nested
`issue_summary` and `visual_data` dictionaries are flattened into fields). -/
structure AnalysisReport where
  forward_match : ℝ
  backward_match : ℝ
  symmetric_score : ℝ
  match_label : String
  match_icon : String
  analysis_summary : String
  total_issues : ℕ
  missing_in_docs : ℕ
  zombie_docs : ℕ
  logic_gaps : ℕ
  quick_fixes : List String
  visual_labels : List String
  visual_values : List ℕ
  details : SimilarityResult

/-- `StatisticalAnalyzer.symmetric_analysis`. -/
noncomputable def symmetric_analysis (code_text doc_text : String) : AnalysisReport :=
  let analysis := compute_similarity code_text doc_text
  let sim_score := analysis.score
  let issues_missing_code := analysis.missing_in_doc
  let issues_missing_docs := analysis.missing_in_code
  let issues_operational :=
    analysis.suggestions.filter (fun s => inStr "Operational".toList s.toList)
  let lbl := labelBlock sim_score
  let detailed_summary :=
    lbl.2.2 ++ " Analyzed " ++ toString analysis.common_words.card ++ " common terms."
  { forward_match := sim_score
    backward_match := sim_score
    symmetric_score := sim_score
    match_label := lbl.1
    match_icon := lbl.2.1
    analysis_summary := detailed_summary
    total_issues :=
      issues_missing_code.card + issues_missing_docs.card + issues_operational.length
    missing_in_docs := issues_missing_code.card
    zombie_docs := issues_missing_docs.card
    logic_gaps := issues_operational.length
    quick_fixes := []
    visual_labels := ["Common", "Code Only", "Doc Only"]
    visual_values :=
      [analysis.common_words.card, issues_missing_code.card, issues_missing_docs.card]
    details := analysis }

/-- The normalized vocabulary of one corpus: the set of distinct tokens
produced by `preprocess`. -/
def vocabulary (text : String) : Finset String := (preprocess text).toFinset

/-- Quality order on the four labels emitted by `labelBlock`. -/
def labelRank (label : String) : ℕ :=
  if label = "Poor Alignment" then 0
  else if label = "Partial Alignment" then 1
  else if label = "High Alignment" then 2
  else 3

/-- A token consisting solely of decimal digits. -/
def isNumericToken (t : String) : Bool :=
  !t.toList.isEmpty && t.toList.all Char.isDigit

/-- The raw cosine similarity computed inside `compute_similarity` (the value
of the local variable `raw_sim`). -/
noncomputable def rawSim (text1 text2 : String) : ℝ :=
  cosineSimilarity (Counter (preprocess text1)) (Counter (preprocess text2))

/-- The boosted score computed inside `compute_similarity` (the line
`score = min(1.0, raw_sim * 1.5) if raw_sim > 0 else 0.0`). -/
noncomputable def boostedScore (text1 text2 : String) : ℝ :=
  if rawSim text1 text2 > 0 then min 1 (rawSim text1 text2 * 1.5) else 0

/-! ### Dictionary semantics of `Counter` -/

theorem lookup_bump (m : List (String × ℕ)) (s t : String) :
    lookup (bump m s) t = if t = s then lookup m t + 1 else lookup m t := by
  induction m with
  | nil =>
    by_cases h : t = s
    · subst h; simp [bump, lookup]
    · have h' : ¬ s = t := fun hs => h hs.symm
      simp [bump, lookup, h, h']
  | cons hd rest ih =>
    obtain ⟨k, v⟩ := hd
    by_cases hks : k = s
    · subst hks
      by_cases hkt : t = k
      · subst hkt; simp [bump, lookup]
      · have h' : ¬ k = t := fun hs => hkt hs.symm
        simp [bump, lookup, h', hkt]
    · by_cases hkt : t = k
      · have hts : ¬ t = s := fun h => hks (hkt.symm.trans h)
        simp [bump, lookup, hks, hts, hkt.symm]
      · have h' : ¬ k = t := fun hs => hkt hs.symm
        simp [bump, lookup, hks, h', hkt, ih]

theorem lookup_foldl_bump (l : List String) :
    ∀ (m : List (String × ℕ)) (t : String),
      lookup (l.foldl bump m) t = lookup m t + l.count t := by
  induction l with
  | nil => intro m t; simp
  | cons a l ih =>
    intro m t
    rw [List.foldl_cons, ih, lookup_bump]
    by_cases h : t = a
    · subst h; simp [List.count_cons]; omega
    · simp [List.count_cons, h]

/-- The entry of `Counter tokens` at key `t` is exactly the number of
occurrences of `t` in the token list. -/
theorem lookup_Counter (tokens : List String) (t : String) :
    lookup (Counter tokens) t = tokens.count t := by
  rw [Counter, lookup_foldl_bump]; simp [lookup]

theorem mem_map_fst_bump (m : List (String × ℕ)) (s t : String) :
    t ∈ (bump m s).map Prod.fst ↔ t ∈ m.map Prod.fst ∨ t = s := by
  induction m with
  | nil => simp [bump]
  | cons hd rest ih =>
    obtain ⟨k, v⟩ := hd
    by_cases hks : k = s
    · subst hks; simp [bump]; tauto
    · simp [bump, hks, ih]; tauto

theorem mem_map_fst_foldl (l : List String) :
    ∀ (m : List (String × ℕ)) (t : String),
      t ∈ (l.foldl bump m).map Prod.fst ↔ t ∈ m.map Prod.fst ∨ t ∈ l := by
  induction l with
  | nil => intro m t; simp
  | cons a l ih =>
    intro m t
    rw [List.foldl_cons, ih, mem_map_fst_bump]
    simp; tauto

/-- The key set of `Counter tokens` is the set of distinct tokens. -/
theorem keys_Counter (tokens : List String) :
    keys (Counter tokens) = tokens.toFinset := by
  ext t
  simp only [keys, Counter, List.mem_toFinset]
  rw [mem_map_fst_foldl]
  simp

/-! ### Anatomy of `compute_similarity` -/

theorem compute_similarity_blank (text1 text2 : String)
    (h : strip text1 = [] ∨ strip text2 = []) :
    compute_similarity text1 text2 =
      { score := 0, common_words := ∅, missing_in_code := ∅, missing_in_doc := ∅,
        suggestions := ["Input missing."] } := by
  rw [compute_similarity, if_pos h]

theorem compute_similarity_main (text1 text2 : String)
    (h1 : strip text1 ≠ []) (h2 : strip text2 ≠ []) :
    compute_similarity text1 text2 =
      { score := boostedScore text1 text2,
        common_words :=
          keys (Counter (preprocess text1)) ∩ keys (Counter (preprocess text2)),
        missing_in_code :=
          keys (Counter (preprocess text2)) \ keys (Counter (preprocess text1)),
        missing_in_doc :=
          keys (Counter (preprocess text1)) \ keys (Counter (preprocess text2)),
        suggestions :=
          operationalSuggestions (text1.toList.map Char.toLower)
              (text2.toList.map Char.toLower) ++
            (if boostedScore text1 text2 < 0.5 then [improveMsg] else []) } := by
  rw [compute_similarity, if_neg (by tauto)]
  rfl

/-! ### The operational filter inside `symmetric_analysis` -/

theorem inStr_improveMsg : inStr "Operational".toList improveMsg.toList = false := by
  decide

theorem gapMsg_has_operational :
    ∀ e ∈ operational_map, inStr "Operational".toList (gapMsg e).toList = true := by
  decide

theorem gapMsg_map_nodup : (operational_map.map gapMsg).Nodup := by decide

theorem gapMsg_ne_improveMsg : ∀ e ∈ operational_map, gapMsg e ≠ improveMsg := by
  decide

theorem filter_operational_append (ops : List String) (c : Prop) [Decidable c] :
    ((ops ++ if c then [improveMsg] else []).filter
        (fun s => inStr "Operational".toList s.toList)) =
      ops.filter (fun s => inStr "Operational".toList s.toList) := by
  rw [List.filter_append]
  split_ifs
  · rw [show (List.filter (fun s => inStr "Operational".toList s.toList) [improveMsg])
          = [] from by decide,
        List.append_nil]
  · rw [show (List.filter (fun s => inStr "Operational".toList s.toList) ([] : List String))
          = [] from rfl,
        List.append_nil]

theorem filter_operational_ops (code_str doc_str : List Char) :
    (operationalSuggestions code_str doc_str).filter
        (fun s => inStr "Operational".toList s.toList) =
      operationalSuggestions code_str doc_str := by
  apply List.filter_eq_self.mpr
  intro a ha
  rw [operationalSuggestions] at ha
  obtain ⟨e, he, rfl⟩ := List.mem_map.mp ha
  exact gapMsg_has_operational e (List.mem_of_mem_filter he)

/-! ### Anatomy of `symmetric_analysis` -/

theorem symmetric_analysis_total_issues (code_text doc_text : String) :
    (symmetric_analysis code_text doc_text).total_issues =
      (compute_similarity code_text doc_text).missing_in_doc.card +
        (compute_similarity code_text doc_text).missing_in_code.card +
        ((compute_similarity code_text doc_text).suggestions.filter
            (fun s => inStr "Operational".toList s.toList)).length := rfl

theorem symmetric_analysis_visual (code_text doc_text : String) :
    (symmetric_analysis code_text doc_text).visual_values =
      [(compute_similarity code_text doc_text).common_words.card,
       (compute_similarity code_text doc_text).missing_in_doc.card,
       (compute_similarity code_text doc_text).missing_in_code.card] := rfl

theorem symmetric_analysis_details (code_text doc_text : String) :
    (symmetric_analysis code_text doc_text).details =
      compute_similarity code_text doc_text := rfl

/-! ### Field projections of a non-blank `compute_similarity` result -/

theorem cs_score (text1 text2 : String) (h1 : strip text1 ≠ []) (h2 : strip text2 ≠ []) :
    (compute_similarity text1 text2).score = boostedScore text1 text2 := by
  rw [compute_similarity_main text1 text2 h1 h2]

theorem cs_common (text1 text2 : String) (h1 : strip text1 ≠ []) (h2 : strip text2 ≠ []) :
    (compute_similarity text1 text2).common_words =
      keys (Counter (preprocess text1)) ∩ keys (Counter (preprocess text2)) := by
  rw [compute_similarity_main text1 text2 h1 h2]

theorem cs_missing_in_code (text1 text2 : String)
    (h1 : strip text1 ≠ []) (h2 : strip text2 ≠ []) :
    (compute_similarity text1 text2).missing_in_code =
      keys (Counter (preprocess text2)) \ keys (Counter (preprocess text1)) := by
  rw [compute_similarity_main text1 text2 h1 h2]

theorem cs_missing_in_doc (text1 text2 : String)
    (h1 : strip text1 ≠ []) (h2 : strip text2 ≠ []) :
    (compute_similarity text1 text2).missing_in_doc =
      keys (Counter (preprocess text1)) \ keys (Counter (preprocess text2)) := by
  rw [compute_similarity_main text1 text2 h1 h2]

theorem cs_suggestions (text1 text2 : String)
    (h1 : strip text1 ≠ []) (h2 : strip text2 ≠ []) :
    (compute_similarity text1 text2).suggestions =
      operationalSuggestions (text1.toList.map Char.toLower)
          (text2.toList.map Char.toLower) ++
        (if boostedScore text1 text2 < 0.5 then [improveMsg] else []) := by
  rw [compute_similarity_main text1 text2 h1 h2]

/-! ### Counting a mapped filter over a duplicate-free table -/

theorem count_map_filter_nodup {α β : Type} [DecidableEq β]
    (f : α → β) (q : α → Bool) :
    ∀ l : List α, (l.map f).Nodup → ∀ a ∈ l,
      ((l.filter q).map f).count (f a) = if q a then 1 else 0 := by
  intro l
  induction l with
  | nil => intro _ a ha; exact absurd ha (List.not_mem_nil a)
  | cons b t ih =>
    intro hnd a ha
    rw [List.map_cons, List.nodup_cons] at hnd
    obtain ⟨hfb, hnd'⟩ := hnd
    rcases List.mem_cons.mp ha with rfl | hat
    · have hzero : ((t.filter q).map f).count (f a) = 0 := by
        apply List.count_eq_zero_of_not_mem
        intro hmem
        exact hfb (((t.filter_sublist).map f).subset hmem)
      rw [List.filter_cons]
      split_ifs with hq
      · rw [List.map_cons, List.count_cons_self, hzero]
      · exact hzero
    · have hfab : f a ≠ f b := by
        intro h
        exact hfb (h ▸ List.mem_map_of_mem f hat)
      rw [List.filter_cons]
      by_cases hq : q b = true
      · rw [if_pos hq, List.map_cons, List.count_cons_of_ne hfab]
        exact ih hnd' a hat
      · rw [if_neg hq]
        exact ih hnd' a hat

/-! ### Concrete evaluation of the cosine model on the pair "aa bb" / "aa cc" -/

theorem cosine_eval_half :
    cosineSimilarity (Counter (preprocess "aa bb")) (Counter (preprocess "aa cc")) =
      1 / 2 := by
  have hnum : dotNumerator (Counter (preprocess "aa bb")) (Counter (preprocess "aa cc")) = 1 := by
    decide
  have hs1 : sumSqValues (Counter (preprocess "aa bb")) = 2 := by decide
  have hs2 : sumSqValues (Counter (preprocess "aa cc")) = 2 := by decide
  rw [cosineSimilarity]
  simp only [hnum, hs1, hs2, Nat.cast_ofNat, Nat.cast_one]
  rw [Real.mul_self_sqrt (by norm_num : (0:ℝ) ≤ 2)]
  norm_num

theorem boosted_eval_threequarters : boostedScore "aa bb" "aa cc" = 3 / 4 := by
  have h : rawSim "aa bb" "aa cc" = 1 / 2 := cosine_eval_half
  unfold boostedScore
  rw [h, if_pos (by norm_num : (1:ℝ) / 2 > 0),
      show (1:ℝ) / 2 * 1.5 = 3 / 4 by norm_num,
      min_eq_right (by norm_num : (3:ℝ) / 4 ≤ 1)]

/-! ## Claim C1 -/

/-- Claim C1, counterexample: on the non-blank pair "aa bb" / "aa cc" the
`score` field of `compute_similarity` (3/4) differs from the raw cosine
similarity of the two term-frequency vectors (1/2), because the code
multiplies the raw value by 1.5 before capping at 1. -/
theorem c1_counterexample :
    (compute_similarity "aa bb" "aa cc").score ≠
      cosineSimilarity (Counter (preprocess "aa bb")) (Counter (preprocess "aa cc")) := by
  have hscore : (compute_similarity "aa bb" "aa cc").score = 3 / 4 := by
    rw [cs_score "aa bb" "aa cc" (by decide) (by decide), boosted_eval_threequarters]
  rw [hscore, cosine_eval_half]
  norm_num

/-- Claim C1 as amended: for every pair of non-blank input texts, the `score`
field of `compute_similarity` is `min(1.0, raw * 1.5)` whenever the raw cosine
similarity is positive, and `0.0` otherwise — a 1.5-fold boost capped at 1.0
is applied inside the similarity stage, before the report builder. -/
theorem c1_boosted_score (text1 text2 : String)
    (h1 : strip text1 ≠ []) (h2 : strip text2 ≠ []) :
    (compute_similarity text1 text2).score =
      (if cosineSimilarity (Counter (preprocess text1)) (Counter (preprocess text2)) > 0
       then min 1 (cosineSimilarity (Counter (preprocess text1))
                      (Counter (preprocess text2)) * 1.5)
       else 0) := by
  rw [cs_score text1 text2 h1 h2]
  rfl

/-- Witness for `c1_boosted_score` at the concrete pair "aa bb" / "aa cc". -/
theorem c1_boosted_score_witness :
    (compute_similarity "aa bb" "aa cc").score =
      (if cosineSimilarity (Counter (preprocess "aa bb")) (Counter (preprocess "aa cc")) > 0
       then min 1 (cosineSimilarity (Counter (preprocess "aa bb"))
                      (Counter (preprocess "aa cc")) * 1.5)
       else 0) :=
  c1_boosted_score "aa bb" "aa cc" (by decide) (by decide)

/-! ## Claim C2 -/

/-- Claim C2, counterexample: in the text "rocket rocket" the term "rocket"
has term frequency 2, and the frequency vector built by `Counter` weights it
2 (the raw count), which is not the sublinear weight `1 + log 2`. -/
theorem c2_counterexample :
    ((lookup (Counter (preprocess "rocket rocket")) "rocket" : ℕ) : ℝ) ≠
      1 + Real.log (((preprocess "rocket rocket").count "rocket" : ℕ) : ℝ) := by
  have h1 : lookup (Counter (preprocess "rocket rocket")) "rocket" = 2 := by decide
  have h2 : (preprocess "rocket rocket").count "rocket" = 2 := by decide
  rw [h1, h2]
  have hlog : Real.log 2 < 1 := lt_trans Real.log_two_lt_d9 (by norm_num)
  push_cast
  intro heq
  linarith

/-- Claim C2 as amended: the frequency vectors used for cosine similarity
weight every term by its raw term frequency — the entry of `Counter tokens`
at `t` is exactly the number of occurrences of `t` — with no sublinear
`1 + log(tf)` scaling. -/
theorem c2_raw_count_weights (tokens : List String) (t : String) :
    lookup (Counter tokens) t = tokens.count t :=
  lookup_Counter tokens t

/-! ## Claim C3 -/

/-- Claim C3: for every pair of non-blank input texts the three sets returned
by `compute_similarity` — common words, missing-in-doc and missing-in-code —
are pairwise disjoint, and their union is exactly the union of the two
corpora's normalized vocabularies (so each term of either vocabulary lies in
exactly one of the three sets). -/
theorem c3_partition (text1 text2 : String)
    (h1 : strip text1 ≠ []) (h2 : strip text2 ≠ []) :
    ((compute_similarity text1 text2).common_words ∩
        (compute_similarity text1 text2).missing_in_doc = ∅) ∧
    ((compute_similarity text1 text2).common_words ∩
        (compute_similarity text1 text2).missing_in_code = ∅) ∧
    ((compute_similarity text1 text2).missing_in_doc ∩
        (compute_similarity text1 text2).missing_in_code = ∅) ∧
    ((compute_similarity text1 text2).common_words ∪
        (compute_similarity text1 text2).missing_in_doc ∪
        (compute_similarity text1 text2).missing_in_code =
      vocabulary text1 ∪ vocabulary text2) := by
  rw [cs_common text1 text2 h1 h2, cs_missing_in_code text1 text2 h1 h2,
      cs_missing_in_doc text1 text2 h1 h2, keys_Counter, keys_Counter]
  refine ⟨?_, ?_, ?_, ?_⟩ <;> ext x <;> simp [vocabulary] <;> try tauto

/-- Witness for `c3_partition` at the concrete pair "alpha beta" /
"alpha gamma". -/
theorem c3_partition_witness :
    ((compute_similarity "alpha beta" "alpha gamma").common_words ∩
        (compute_similarity "alpha beta" "alpha gamma").missing_in_doc = ∅) ∧
    ((compute_similarity "alpha beta" "alpha gamma").common_words ∩
        (compute_similarity "alpha beta" "alpha gamma").missing_in_code = ∅) ∧
    ((compute_similarity "alpha beta" "alpha gamma").missing_in_doc ∩
        (compute_similarity "alpha beta" "alpha gamma").missing_in_code = ∅) ∧
    ((compute_similarity "alpha beta" "alpha gamma").common_words ∪
        (compute_similarity "alpha beta" "alpha gamma").missing_in_doc ∪
        (compute_similarity "alpha beta" "alpha gamma").missing_in_code =
      vocabulary "alpha beta" ∪ vocabulary "alpha gamma") :=
  c3_partition "alpha beta" "alpha gamma" (by decide) (by decide)

/-! ## Claim C4 -/

/-- Claim C4: whenever the code text or the documentation text is empty or
whitespace-only, `compute_similarity` returns the degenerate report: score
exactly 0.0 and the single suggestion "Input missing." (the embedding is a
total function, so no exception is possible). -/
theorem c4_blank_input (text1 text2 : String)
    (h : strip text1 = [] ∨ strip text2 = []) :
    (compute_similarity text1 text2).score = 0 ∧
    (compute_similarity text1 text2).suggestions = ["Input missing."] := by
  rw [compute_similarity_blank text1 text2 h]
  exact ⟨rfl, rfl⟩

/-- Witness for `c4_blank_input` on the pair `("", "anything")`. -/
theorem c4_blank_input_witness :
    (compute_similarity "" "anything").score = 0 ∧
    (compute_similarity "" "anything").suggestions = ["Input missing."] :=
  c4_blank_input "" "anything" (Or.inl (by decide))

/-! ## Claim C5 -/

/-- Claim C5: the label chain of `symmetric_analysis` is monotone — for
scores `s1 < s2` in `[0,1]` the label of `s1` is never better than that of
`s2` in the order Poor < Partial < High < Production — and exhaustive: every
score in `[0,1]` receives one of the four labels (exactly one, since
`labelBlock` is a function). -/
theorem c5_label_monotone_exhaustive :
    (∀ s1 s2 : ℝ, 0 ≤ s1 → s1 ≤ 1 → 0 ≤ s2 → s2 ≤ 1 → s1 < s2 →
      labelRank (labelBlock s1).1 ≤ labelRank (labelBlock s2).1) ∧
    (∀ s : ℝ, 0 ≤ s → s ≤ 1 →
      (labelBlock s).1 ∈
        ["Poor Alignment", "Partial Alignment", "High Alignment",
         "Production Quality"]) := by
  constructor
  · intro s1 s2 _ _ _ _ hlt
    unfold labelBlock
    split_ifs <;> first | decide | linarith
  · intro s _ _
    unfold labelBlock
    split_ifs <;> decide

/-- Witness for `c5_label_monotone_exhaustive` at the scores 1/2 and 9/10. -/
theorem c5_label_witness :
    labelRank (labelBlock (1 / 2)).1 ≤ labelRank (labelBlock (9 / 10)).1 ∧
    (labelBlock (1 / 2)).1 ∈
      ["Poor Alignment", "Partial Alignment", "High Alignment",
       "Production Quality"] :=
  ⟨c5_label_monotone_exhaustive.1 (1 / 2) (9 / 10) (by norm_num) (by norm_num)
      (by norm_num) (by norm_num) (by norm_num),
   c5_label_monotone_exhaustive.2 (1 / 2) (by norm_num) (by norm_num)⟩

/-! ## Claim C6 -/

/-- Claim C6, counterexample: on the pair "alpha beta" / "alpha gamma" the
report's `total_issues` is 2 (one code-only term plus one doc-only term)
while `missing_in_doc` has size 1, so the reported total issue count does not
equal the size of missing-in-doc. -/
theorem c6_counterexample :
    (symmetric_analysis "alpha beta" "alpha gamma").total_issues ≠
      (symmetric_analysis "alpha beta" "alpha gamma").details.missing_in_doc.card := by
  rw [symmetric_analysis_total_issues, symmetric_analysis_details,
      cs_suggestions "alpha beta" "alpha gamma" (by decide) (by decide),
      filter_operational_append, filter_operational_ops,
      cs_missing_in_doc "alpha beta" "alpha gamma" (by decide) (by decide),
      cs_missing_in_code "alpha beta" "alpha gamma" (by decide) (by decide)]
  decide

/-- Claim C6 as amended: in every report built from non-blank inputs,
`total_issues` equals the size of missing-in-doc plus the size of
missing-in-code plus the number of operational-gap suggestions, and the
common-vocabulary size is reported as the first `visual_data` value (there is
no separate synced count field). -/
theorem c6_issue_counts (text1 text2 : String)
    (h1 : strip text1 ≠ []) (h2 : strip text2 ≠ []) :
    (symmetric_analysis text1 text2).total_issues =
      (compute_similarity text1 text2).missing_in_doc.card +
        (compute_similarity text1 text2).missing_in_code.card +
        (operationalSuggestions (text1.toList.map Char.toLower)
            (text2.toList.map Char.toLower)).length ∧
    (symmetric_analysis text1 text2).visual_values.headD 0 =
      (compute_similarity text1 text2).common_words.card := by
  constructor
  · rw [symmetric_analysis_total_issues, cs_suggestions text1 text2 h1 h2,
        filter_operational_append, filter_operational_ops]
  · rw [symmetric_analysis_visual]
    rfl

/-- Witness for `c6_issue_counts` at the pair "alpha beta" / "alpha gamma". -/
theorem c6_issue_counts_witness :
    (symmetric_analysis "alpha beta" "alpha gamma").total_issues =
      (compute_similarity "alpha beta" "alpha gamma").missing_in_doc.card +
        (compute_similarity "alpha beta" "alpha gamma").missing_in_code.card +
        (operationalSuggestions ("alpha beta".toList.map Char.toLower)
            ("alpha gamma".toList.map Char.toLower)).length ∧
    (symmetric_analysis "alpha beta" "alpha gamma").visual_values.headD 0 =
      (compute_similarity "alpha beta" "alpha gamma").common_words.card :=
  c6_issue_counts "alpha beta" "alpha gamma" (by decide) (by decide)

/-! ## Claim C7 -/

/-- Claim C7: for non-blank inputs and every entry of the operational table,
the report contains exactly one operational-gap suggestion naming that
trigger if and only if the trigger occurs (lowercased, as a substring) in
the code text and neither the trigger nor any of its synonyms occurs in the
documentation text; otherwise (in particular when the trigger is absent from
the code text) that suggestion does not occur at all. -/
theorem c7_operational_gaps (text1 text2 : String)
    (h1 : strip text1 ≠ []) (h2 : strip text2 ≠ []) :
    ∀ e ∈ operational_map,
      (compute_similarity text1 text2).suggestions.count (gapMsg e) =
        (if inStr e.1.toList (text1.toList.map Char.toLower) &&
              !(e.2.any (fun s => inStr s.toList (text2.toList.map Char.toLower)) ||
                inStr e.1.toList (text2.toList.map Char.toLower))
         then 1 else 0) := by
  intro e he
  rw [cs_suggestions text1 text2 h1 h2, List.count_append]
  have h0 : (if boostedScore text1 text2 < 0.5 then [improveMsg] else []).count
      (gapMsg e) = 0 := by
    split_ifs
    · exact List.count_eq_zero_of_not_mem
        (fun hmem => gapMsg_ne_improveMsg e he (List.mem_singleton.mp hmem))
    · rfl
  rw [h0, Nat.add_zero]
  unfold operationalSuggestions
  exact count_map_filter_nodup gapMsg
    (unmetTrigger (text1.toList.map Char.toLower) (text2.toList.map Char.toLower))
    operational_map gapMsg_map_nodup e he

/-- Witness for `c7_operational_gaps`: code "dist", doc "hello", at the
table entry for trigger "dist". -/
theorem c7_operational_gaps_witness :
    (compute_similarity "dist" "hello").suggestions.count
        (gapMsg ("dist", ["distance", "euclidean", "metric", "path"])) =
      (if inStr "dist".toList ("dist".toList.map Char.toLower) &&
            !((["distance", "euclidean", "metric", "path"] : List String).any
                (fun s => inStr s.toList ("hello".toList.map Char.toLower)) ||
              inStr "dist".toList ("hello".toList.map Char.toLower))
       then 1 else 0) :=
  c7_operational_gaps "dist" "hello" (by decide) (by decide)
    ("dist", ["distance", "euclidean", "metric", "path"]) (by decide)

/-! ## Claim C8 -/

/-- Claim C8: the cosine similarity model is a total function, and whenever
either frequency vector is empty or has zero norm (zero sum of squared
values), the guard on the denominator makes the result exactly 0, so the
division branch is never reached with a zero denominator. -/
theorem c8_zero_norm (vec1 vec2 : List (String × ℕ))
    (h : vec1 = [] ∨ vec2 = [] ∨ sumSqValues vec1 = 0 ∨ sumSqValues vec2 = 0) :
    cosineSimilarity vec1 vec2 = 0 := by
  have hz : Real.sqrt (sumSqValues vec1) * Real.sqrt (sumSqValues vec2) = 0 := by
    rcases h with rfl | rfl | h | h
    · simp [sumSqValues]
    · simp [sumSqValues]
    · rw [h]; simp
    · rw [h]; simp
  simp [cosineSimilarity, hz]

/-- Witness for `c8_zero_norm`: the empty vector against a non-empty one. -/
theorem c8_zero_norm_witness : cosineSimilarity [] [("term", 2)] = 0 :=
  c8_zero_norm [] [("term", 2)] (Or.inl rfl)

/-! ## Claim C9 -/

/-- Claim C9, counterexample: `preprocess` does not remove numeric tokens —
on input "code 42" the all-digit token "42" survives the filter. -/
theorem c9_counterexample :
    ("42" ∈ preprocess "code 42") ∧ isNumericToken "42" = true := by
  decide

/-- Claim C9 as amended: every token produced by `preprocess` has length
strictly greater than 1 and is not in the stopword set; numeric tokens,
however, are not removed. -/
theorem c9_token_filter (text : String) (t : String) (h : t ∈ preprocess text) :
    t.length > 1 ∧ t ∉ stop_words := by
  unfold preprocess at h
  rw [List.mem_filter] at h
  obtain ⟨-, hcond⟩ := h
  rw [Bool.and_eq_true] at hcond
  obtain ⟨hnc, hlen⟩ := hcond
  refine ⟨of_decide_eq_true hlen, ?_⟩
  intro hmem
  rw [Bool.not_eq_true'] at hnc
  simp at hnc
  exact hnc hmem

/-- Witness for `c9_token_filter` at the token "hello" of "hello world". -/
theorem c9_token_filter_witness : "hello".length > 1 ∧ "hello" ∉ stop_words :=
  c9_token_filter "hello world" "hello" (by decide)

/-! ## Claim C10 -/

/-- Claim C10: in every report of `symmetric_analysis`, the fields
`forward_match`, `backward_match` and `symmetric_score` carry one and the
same similarity value — no directional asymmetry is ever reported. -/
theorem c10_no_directional_asymmetry (code_text doc_text : String) :
    (symmetric_analysis code_text doc_text).forward_match =
        (symmetric_analysis code_text doc_text).symmetric_score ∧
      (symmetric_analysis code_text doc_text).backward_match =
        (symmetric_analysis code_text doc_text).symmetric_score :=
  ⟨rfl, rfl⟩

end DocSync
